import Mathlib

/-!
Verification of the elrond rollout control plane: a shallow embedding of the
ring / installation-group state machines (`model/ring_states.go` and the
installation-group supervisor) together with proofs about the state
transition logic.

Conventions of the embedding:
  * Go string constants become Lean `String` definitions with the same names.
  * Pure Go functions become Lean functions of the same name.
  * A Go function that performs store or provisioner calls becomes a Lean
    function taking each call's result as an explicit argument: a store query
    that may fail is an `Option`, a provisioner call that may fail is a `Bool`
    (`true` = success), and `time.Now().UnixNano()` readings are `Int`
    arguments.  Go `int64` arithmetic here stays far from 2^63, so `Int`
    models it exactly.
-/

namespace Elrond

/-! ## Ring states (`model/ring_states.go`) -/

def RingStateStable : String := "stable"

def RingStateCreationRequested : String := "creation-requested"

def RingStateCreationFailed : String := "creation-failed"

def RingStateReleaseRequested : String := "release-requested"

def RingStateReleaseFailed : String := "release-failed"

def RingStateReleaseComplete : String := "release-complete"

def RingStateSoakingRequested : String := "soaking-requested"

def RingStateSoakingFailed : String := "soaking-failed"

def RingStateReleaseRollbackRequested : String := "release-rollback-requested"

def RingStateReleaseRollbackComplete : String := "release-rollback-complete"

def RingStateReleaseRollbackFailed : String := "release-rollback-failed"

def RingStateDeletionRequested : String := "deletion-requested"

def RingStateDeletionFailed : String := "deletion-failed"

def RingStateDeleted : String := "deleted"

/-- Modelled from the spec: the ring-level `release-in-progress` state is
referenced by the installation-group supervisor (`model.RingStateReleaseInProgress`)
but its constant declaration is not among the provided model sources; the spec's
ring state list gives its string value. -/
def RingStateReleaseInProgress : String := "release-in-progress"

def AllRingStates : List String :=
  [RingStateStable,
   RingStateCreationRequested,
   RingStateCreationFailed,
   RingStateReleaseRequested,
   RingStateReleaseFailed,
   RingStateReleaseComplete,
   RingStateSoakingRequested,
   RingStateSoakingFailed,
   RingStateReleaseRollbackRequested,
   RingStateReleaseRollbackFailed,
   RingStateReleaseRollbackComplete,
   RingStateDeletionRequested,
   RingStateDeletionFailed,
   RingStateDeleted]

def AllRingStatesPendingWork : List String :=
  [RingStateCreationRequested,
   RingStateReleaseRequested,
   RingStateSoakingRequested,
   RingStateReleaseRollbackRequested,
   RingStateDeletionRequested]

def AllRingRequestStates : List String :=
  [RingStateCreationRequested,
   RingStateReleaseRequested,
   RingStateSoakingRequested,
   RingStateReleaseRollbackRequested,
   RingStateDeletionRequested]

/-- The Ring row. The Go struct (`model/ring.go`, described in the spec's data
model) carries further fields (Name, Priority, timestamps, ...); only the fields
the verified control logic reads are embedded. -/
structure Ring where
  id : String
  state : String
  desiredReleaseID : String
  deriving Repr, DecidableEq

def validTransitionToRingStateCreationRequested (currentState : String) : Bool :=
  currentState = RingStateCreationRequested ||
  currentState = RingStateCreationFailed

def validTransitionToRingStateReleaseRequested (currentState : String) : Bool :=
  currentState = RingStateStable ||
  currentState = RingStateReleaseRequested ||
  currentState = RingStateReleaseFailed

def validTransitionToRingStateDeletionRequested (currentState : String) : Bool :=
  currentState = RingStateStable ||
  currentState = RingStateCreationRequested ||
  currentState = RingStateCreationFailed ||
  currentState = RingStateReleaseFailed ||
  currentState = RingStateDeletionRequested ||
  currentState = RingStateDeletionFailed

def validTransitionToRingStateSoakingRequested (currentState : String) : Bool :=
  currentState = RingStateReleaseComplete ||
  currentState = RingStateSoakingRequested ||
  currentState = RingStateSoakingFailed

def validTransitionToRingStateRollbackRequested (currentState : String) : Bool :=
  currentState = RingStateSoakingFailed ||
  currentState = RingStateReleaseFailed ||
  currentState = RingStateReleaseRollbackFailed

/-- `Ring.ValidTransitionState` from `model/ring_states.go`: whether a ring in
state `c.state` may be moved into `newState` by the API. -/
def Ring.ValidTransitionState (c : Ring) (newState : String) : Bool :=
  if newState = RingStateCreationRequested then
    validTransitionToRingStateCreationRequested c.state
  else if newState = RingStateReleaseRequested then
    validTransitionToRingStateReleaseRequested c.state
  else if newState = RingStateDeletionRequested then
    validTransitionToRingStateDeletionRequested c.state
  else if newState = RingStateSoakingRequested then
    validTransitionToRingStateSoakingRequested c.state
  else if newState = RingStateReleaseRollbackRequested then
    validTransitionToRingStateRollbackRequested c.state
  else
    false

/-! ## Installation-group states

Modelled from the spec: the installation-group model file declaring the
`model.InstallationGroup*` state constants is not among the provided sources;
the constant names are taken from their uses in the supervisor and the string
values from the spec's IG state list. -/

def InstallationGroupStable : String := "stable"

def InstallationGroupReleasePending : String := "release-pending"

def InstallationGroupReleaseRequested : String := "release-requested"

def InstallationGroupReleaseInProgress : String := "release-in-progress"

def InstallationGroupReleaseFailed : String := "release-failed"

def InstallationGroupReleaseSoakingRequested : String := "soaking-requested"

def InstallationGroupReleaseSoakingFailed : String := "soaking-failed"

/-- The InstallationGroup row; fields per the spec's data model
(lock fields are `none` when unlocked). `releaseAt` is a nanosecond
wall-clock timestamp, `soakTime` is in seconds. -/
structure InstallationGroup where
  id : String
  state : String
  releaseAt : Int
  soakTime : Int
  lockAcquiredBy : Option String
  lockAcquiredAt : Int
  deriving Repr, DecidableEq

/-- The RingRelease row (`ID`, `Image`, `Version`, `Force`). -/
structure RingRelease where
  id : String
  image : String
  version : String
  force : Bool
  deriving Repr, DecidableEq

/-- An invocation of the installation-group provisioner, recorded so theorems
can speak about which side effect a transition performs and with which
arguments. -/
inductive ProvisionerCall where
  | releaseIG (igID image version : String)
  | soakIG (igID : String)
  deriving Repr, DecidableEq

/-- `checkInstallationGroupPending`: computes the next state of an
installation group found in `release-pending`.  `ringRes` is the result of
`GetRingFromInstallationGroupID` (`none` = store error), `lockedRes` of
`GetInstallationGroupsLocked`, `inProgressRes` of
`GetInstallationGroupsReleaseInProgress`; store calls the Go code never
reaches are simply unused arguments. -/
def checkInstallationGroupPending (ringRes : Option Ring)
    (lockedRes : Option (List InstallationGroup))
    (inProgressRes : Option (List InstallationGroup)) : String :=
  match ringRes with
  | none => InstallationGroupReleaseFailed
  | some ring =>
    if ring.state = RingStateReleaseFailed then
      InstallationGroupReleaseFailed
    else if ring.state ≠ RingStateReleaseRequested ∧
        ring.state ≠ RingStateReleaseInProgress then
      InstallationGroupReleasePending
    else
      match lockedRes with
      | none => InstallationGroupReleaseFailed
      | some installationGroupsLocked =>
        match inProgressRes with
        | none => InstallationGroupReleaseFailed
        | some installationGroupsReleaseInProgress =>
          -- The total installation groups locked at this time will be at least 1
          if installationGroupsLocked.length > 1 ∨
              installationGroupsReleaseInProgress.length > 0 then
            InstallationGroupReleasePending
          else
            InstallationGroupReleaseRequested

/-- `releaseInstallationGroup`: computes the next state of an installation
group found in `release-requested`, together with the provisioner call it
performs.  `getRelease` is `GetRingRelease` (`none` = store error) and
`provisionerOk` reports whether `provisioner.ReleaseInstallationGroup`
succeeded. -/
def releaseInstallationGroup (installationGroup : InstallationGroup)
    (ringRes : Option Ring) (getRelease : String → Option RingRelease)
    (provisionerOk : Bool) : Option ProvisionerCall × String :=
  match ringRes with
  | none => (none, InstallationGroupReleaseFailed)
  | some ring =>
    match getRelease ring.desiredReleaseID with
    | none => (none, InstallationGroupReleaseFailed)
    | some release =>
      let call := some (ProvisionerCall.releaseIG installationGroup.id
        release.image release.version)
      if !provisionerOk then
        (call, InstallationGroupReleaseFailed)
      else if release.force then
        (call, InstallationGroupStable)
      else
        (call, InstallationGroupReleaseSoakingRequested)

/-- `soakInstallationGroup`: computes the next state of an installation group
found in `soaking-requested`.  `now` models `time.Now().UnixNano()`;
`Int.tdiv` is Go's truncating `int64` division and `1000000000` is
`int64(time.Second)`. -/
def soakInstallationGroup (installationGroup : InstallationGroup)
    (provisionerOk : Bool) (now : Int) : Option ProvisionerCall × String :=
  let timePassed := Int.tdiv (now - installationGroup.releaseAt) 1000000000
  if timePassed < installationGroup.soakTime then
    (none, InstallationGroupReleaseSoakingRequested)
  else if !provisionerOk then
    (some (ProvisionerCall.soakIG installationGroup.id),
      InstallationGroupReleaseSoakingFailed)
  else
    (some (ProvisionerCall.soakIG installationGroup.id), InstallationGroupStable)

/-- `transitionInstallationGroup`: dispatches on the installation group's
current state; any other state is returned unchanged with no side effect. -/
def transitionInstallationGroup (installationGroup : InstallationGroup)
    (ringRes : Option Ring) (lockedRes : Option (List InstallationGroup))
    (inProgressRes : Option (List InstallationGroup))
    (getRelease : String → Option RingRelease)
    (provisionerReleaseOk provisionerSoakOk : Bool) (now : Int) :
    Option ProvisionerCall × String :=
  if installationGroup.state = InstallationGroupReleasePending then
    (none, checkInstallationGroupPending ringRes lockedRes inProgressRes)
  else if installationGroup.state = InstallationGroupReleaseRequested then
    releaseInstallationGroup installationGroup ringRes getRelease
      provisionerReleaseOk
  else if installationGroup.state = InstallationGroupReleaseSoakingRequested then
    soakInstallationGroup installationGroup provisionerSoakOk now
  else
    (none, installationGroup.state)

/-- `Do`: discovery.  `pendingRes` is the result of
`GetInstallationGroupsPendingWork`; the returned list is the list of
installation groups the tick goes on to supervise (on a store error the
error is logged and the tick supervises nothing). -/
def Do (pendingRes : Option (List InstallationGroup)) :
    List InstallationGroup :=
  match pendingRes with
  | none => []
  | some installationGroups => installationGroups

/-! ## Webhooks and the persistence tail of `Supervise` -/

/-- Modelled from the spec: the webhook payload `Type` value used for ring
events (`model.TypeRing`; the webhook model file is not among the provided
sources, the spec gives the payload type values). -/
def TypeRing : String := "ring"

/-- Modelled from the spec: the webhook payload `Type` value for
installation-group events (`model.TypeInstallationGroup`). -/
def TypeInstallationGroup : String := "installation-group"

/-- The webhook payload `{Type, ID, NewState, OldState, Timestamp}`. -/
structure WebhookPayload where
  payloadType : String
  id : String
  newState : String
  oldState : String
  timestamp : Int
  deriving Repr, DecidableEq

/-- A webhook subscriber row. -/
structure Webhook where
  id : String
  url : String
  ownerID : String
  deriving Repr, DecidableEq

/-- Modelled from the spec: `webhook.SendToAllWebhooks` posts the payload to
every registered webhook, unfiltered; the result lists each delivery as
(URL, payload). -/
def sendToAllWebhooks (webhooks : List Webhook) (payload : WebhookPayload) :
    List (String × WebhookPayload) :=
  webhooks.map (fun w => (w.url, payload))

/-- The store and webhook effects of one `Supervise` call, as observed by the
outside world: the row passed to `UpdateInstallationGroup` (if called), the
list passed to `UpdateRings` (if called), and the payload handed to
`SendToAllWebhooks` (if reached). -/
structure SuperviseOutcome where
  updateIGCall : Option InstallationGroup
  updateRingsCall : Option (List Ring)
  webhookPayload : Option WebhookPayload
  deriving Repr, DecidableEq

/-- The persistence tail of `Supervise` (after `transitionInstallationGroup`
has produced `newState` and the installation group has been re-read as
`installationGroup`): skip when the state is unchanged; otherwise set the new
state (stamping `ReleaseAt := tRelease` on `release-requested` →
`soaking-requested`/`stable`), persist, cascade all pending-work rings to
`release-failed` when the new state is a failure state, and emit the webhook
payload (with `Type := TypeRing`, as in the source).  `updateOk` and
`ringsUpdateOk` report success of `UpdateInstallationGroup` / `UpdateRings`;
`ringsPendingRes` is the result of `GetRingsPendingWork`; a failed store call
makes the function return early, exactly as the Go code does. -/
def supervisePersist (installationGroup : InstallationGroup)
    (newState : String) (tRelease tWebhook : Int) (updateOk : Bool)
    (ringsPendingRes : Option (List Ring)) (ringsUpdateOk : Bool) :
    SuperviseOutcome :=
  if installationGroup.state = newState then
    ⟨none, none, none⟩
  else
    let oldState := installationGroup.state
    let updated : InstallationGroup :=
      { installationGroup with
        state := newState
        releaseAt :=
          if oldState = InstallationGroupReleaseRequested ∧
              (newState = InstallationGroupReleaseSoakingRequested ∨
               newState = InstallationGroupStable) then
            tRelease
          else installationGroup.releaseAt }
    if !updateOk then
      ⟨some updated, none, none⟩
    else if newState = InstallationGroupReleaseFailed ∨
        newState = InstallationGroupReleaseSoakingFailed then
      match ringsPendingRes with
      | none => ⟨some updated, none, none⟩
      | some rings =>
        let ringsFailed :=
          rings.map (fun r => { r with state := RingStateReleaseFailed })
        if !ringsUpdateOk then
          ⟨some updated, some ringsFailed, none⟩
        else
          ⟨some updated, some ringsFailed,
            some ⟨TypeRing, installationGroup.id, newState, oldState,
              tWebhook⟩⟩
    else
      ⟨some updated, none,
        some ⟨TypeRing, installationGroup.id, newState, oldState, tWebhook⟩⟩

/-! ## The system step relation (C1)

A small-step interleaving semantics for the store as shared by several
supervisor instances.  Each store operation of the Go code is one atomic
step; the transition computation together with its persistence runs under the
per-installation-group lock and is taken as one atomic step (its inputs are
the store contents at that moment, with nondeterministic transient errors
injected through an oracle).  The ring supervisor and the API only write ring
rows (and mark child installation groups `release-pending`); they are
modelled from the spec since their sources are not provided, and the generic
ring write over-approximates every ring-state change they can make. -/

/-- Modelled from the spec: the installation-group pending-work set
(`release-pending`, `release-requested`, `release-in-progress`,
`soaking-requested`); the model file declaring it is not among the provided
sources. -/
def AllInstallationGroupStatesPendingWork : List String :=
  [InstallationGroupReleasePending, InstallationGroupReleaseRequested,
   InstallationGroupReleaseInProgress, InstallationGroupReleaseSoakingRequested]

/-- What a supervisor instance is currently doing: nothing, or holding the
lock of an installation group it is supervising, remembering the state
snapshot taken at discovery. -/
inductive SupervisorThread where
  | idle
  | holding (igID snapshot : String)
  deriving Repr, DecidableEq

/-- The shared store plus the supervisor instances: installation-group rows,
ring rows, the Ring↔IG membership table (IG id ↦ ring id), the ring-release
rows, and each instance's activity. -/
structure SystemState where
  igs : List InstallationGroup
  rings : List Ring
  ringOfIG : List (String × String)
  releases : List RingRelease
  threads : List (String × SupervisorThread)
  deriving Repr, DecidableEq

/-- `GetInstallationGroupByID` against the store. -/
def lookupIG (s : SystemState) (igID : String) : Option InstallationGroup :=
  s.igs.find? (fun g => g.id = igID)

/-- Apply `f` to the installation-group row with the given id. -/
def updateIGRow (s : SystemState) (igID : String)
    (f : InstallationGroup → InstallationGroup) : SystemState :=
  { s with igs := s.igs.map (fun g => if g.id = igID then f g else g) }

/-- The activity of a supervisor instance. -/
def threadOf (s : SystemState) (instanceID : String) :
    Option SupervisorThread :=
  (s.threads.find? (fun t => t.1 = instanceID)).map Prod.snd

/-- Record a supervisor instance's new activity. -/
def setThread (s : SystemState) (instanceID : String)
    (t : SupervisorThread) : SystemState :=
  { s with
    threads := s.threads.map
      (fun p => if p.1 = instanceID then (p.1, t) else p) }

/-- `GetRingFromInstallationGroupID` against the store. -/
def getRingFromInstallationGroupID (s : SystemState) (igID : String) :
    Option Ring :=
  match s.ringOfIG.find? (fun p => p.1 = igID) with
  | none => none
  | some p => s.rings.find? (fun r => r.id = p.2)

/-- `GetInstallationGroupsLocked` against the store. -/
def installationGroupsLocked (s : SystemState) : List InstallationGroup :=
  s.igs.filter (fun g => g.lockAcquiredBy.isSome)

/-- `GetInstallationGroupsReleaseInProgress` against the store (modelled from
the spec: the rows whose state is `release-in-progress`). -/
def installationGroupsReleaseInProgress (s : SystemState) :
    List InstallationGroup :=
  s.igs.filter (fun g => g.state = InstallationGroupReleaseInProgress)

/-- `GetRingRelease` against the store. -/
def getRingRelease (s : SystemState) (releaseID : String) :
    Option RingRelease :=
  s.releases.find? (fun r => r.id = releaseID)

/-- The nondeterministic environment of one supervision: which store queries
fail transiently, whether the provisioner calls fail, and the wall-clock
readings. -/
structure TickOracle where
  ringQueryErr : Bool
  lockedQueryErr : Bool
  inProgressQueryErr : Bool
  releaseQueryErr : Bool
  provisionerReleaseErr : Bool
  provisionerSoakErr : Bool
  refreshErr : Bool
  updateErr : Bool
  ringsPendingErr : Bool
  ringsUpdateErr : Bool
  now : Int
  tRelease : Int
  tWebhook : Int
  deriving Repr, DecidableEq

/-- `TryLock` success: stamp the lock row and remember the snapshot. -/
def applyLock (s : SystemState) (instanceID igID snapshot : String)
    (t : Int) : SystemState :=
  setThread
    (updateIGRow s igID
      (fun g => { g with lockAcquiredBy := some instanceID,
                         lockAcquiredAt := t }))
    instanceID (.holding igID snapshot)

/-- `Unlock` (non-forced): clear the lock row if this instance still owns it. -/
def unlockIG (s : SystemState) (igID instanceID : String) : SystemState :=
  updateIGRow s igID
    (fun g => if g.lockAcquiredBy = some instanceID then
        { g with lockAcquiredBy := none }
      else g)

/-- End of a `Supervise` call: release the lock (deferred `Unlock`) and go
idle. -/
def finishSupervise (s : SystemState) (instanceID igID : String) :
    SystemState :=
  setThread (unlockIG s igID instanceID) instanceID .idle

/-- The next state `transitionInstallationGroup` computes for `g` against the
store `s`, with transient errors injected by the oracle. -/
def superviseNewState (s : SystemState) (igID : String)
    (g : InstallationGroup) (o : TickOracle) : String :=
  (transitionInstallationGroup g
    (if o.ringQueryErr then none else getRingFromInstallationGroupID s igID)
    (if o.lockedQueryErr then none else some (installationGroupsLocked s))
    (if o.inProgressQueryErr then none
     else some (installationGroupsReleaseInProgress s))
    (fun releaseID =>
      if o.releaseQueryErr then none else getRingRelease s releaseID)
    (!o.provisionerReleaseErr) (!o.provisionerSoakErr) o.now).2

/-- The body of `Supervise` after the lock is held and the snapshot check has
passed: compute the next state, re-read, persist (stamping `ReleaseAt` on
`release-requested` → `soaking-requested`/`stable`), cascade all pending-work
rings to `release-failed` when the new state is a failure state, unlock.  A
transient store error makes the call return early with the store as it was at
that point, exactly as the Go code does. -/
def superviseWork (s : SystemState) (instanceID igID : String)
    (g : InstallationGroup) (o : TickOracle) : SystemState :=
  let newState := superviseNewState s igID g o
  if o.refreshErr then
    finishSupervise s instanceID igID
  else if g.state = newState then
    finishSupervise s instanceID igID
  else if o.updateErr then
    finishSupervise s instanceID igID
  else
    let s1 := updateIGRow s igID (fun h =>
      { h with
        state := newState,
        releaseAt :=
          if g.state = InstallationGroupReleaseRequested ∧
              (newState = InstallationGroupReleaseSoakingRequested ∨
               newState = InstallationGroupStable) then o.tRelease
          else h.releaseAt })
    if newState = InstallationGroupReleaseFailed ∨
        newState = InstallationGroupReleaseSoakingFailed then
      if o.ringsPendingErr then
        finishSupervise s1 instanceID igID
      else if o.ringsUpdateErr then
        finishSupervise s1 instanceID igID
      else
        finishSupervise
          { s1 with rings := s1.rings.map (fun r =>
              if r.state ∈ AllRingStatesPendingWork then
                { r with state := RingStateReleaseFailed }
              else r) }
          instanceID igID
    else
      finishSupervise s1 instanceID igID

/-- Modelled from the spec: the ring supervisor's `release-requested` row —
mark every child installation group `release-pending` and move the ring to
`release-in-progress`. -/
def applyRingMarkPending (s : SystemState) (ringID : String) : SystemState :=
  { s with
    igs := s.igs.map (fun g =>
      if (g.id, ringID) ∈ s.ringOfIG then
        { g with state := InstallationGroupReleasePending }
      else g),
    rings := s.rings.map (fun r =>
      if r.id = ringID then { r with state := RingStateReleaseInProgress }
      else r) }

/-- Modelled from the spec: any other ring-supervisor or API action writes
only the ring row (this over-approximates the ring state machine). -/
def applyRingSetState (s : SystemState) (ringID newState : String) :
    SystemState :=
  { s with rings := s.rings.map (fun r =>
      if r.id = ringID then { r with state := newState } else r) }

/-- One atomic step of the system: a supervisor instance acquires a pending
installation group's lock, aborts a supervision (stale snapshot or transient
refresh error), or runs the locked transition body; or the ring supervisor /
API writes ring rows. -/
inductive SystemStep : SystemState → SystemState → Prop where
  | lockIG (s : SystemState) (instanceID igID : String)
      (g : InstallationGroup) (t : Int) :
      threadOf s instanceID = some .idle →
      lookupIG s igID = some g →
      g.state ∈ AllInstallationGroupStatesPendingWork →
      g.lockAcquiredBy = none →
      SystemStep s (applyLock s instanceID igID g.state t)
  | abortSupervise (s : SystemState) (instanceID igID snapshot : String) :
      threadOf s instanceID = some (.holding igID snapshot) →
      SystemStep s (finishSupervise s instanceID igID)
  | workSupervise (s : SystemState) (instanceID igID snapshot : String)
      (g : InstallationGroup) (o : TickOracle) :
      threadOf s instanceID = some (.holding igID snapshot) →
      lookupIG s igID = some g →
      g.state = snapshot →
      SystemStep s (superviseWork s instanceID igID g o)
  | ringMarkPending (s : SystemState) (ringID : String) (r : Ring) :
      r ∈ s.rings → r.id = ringID → r.state = RingStateReleaseRequested →
      SystemStep s (applyRingMarkPending s ringID)
  | ringSetState (s : SystemState) (ringID newState : String) :
      SystemStep s (applyRingSetState s ringID newState)

/-- States reachable from `init` by the step relation. -/
inductive Reachable (init : SystemState) : SystemState → Prop where
  | refl : Reachable init init
  | step {s s' : SystemState} :
      Reachable init s → SystemStep s s' → Reachable init s'

/-- Whether an installation-group row is in state `release-in-progress`. -/
def isReleaseInProgress (g : InstallationGroup) : Bool :=
  g.state = InstallationGroupReleaseInProgress

/-- The number of installation groups in state `release-in-progress`. -/
def releaseInProgressCount (s : SystemState) : Nat :=
  s.igs.countP isReleaseInProgress

/-- The number of installation groups that are in `release-in-progress` or
held under the release lock. -/
def lockedOrReleaseInProgressCount (s : SystemState) : Nat :=
  s.igs.countP
    (fun g => g.lockAcquiredBy.isSome || isReleaseInProgress g)

/-- Initial state for the C1 counterexample: one ring in `release-requested`
with two installation groups in `release-pending` (spec scenario 1), two
supervisor instances idle, nothing locked, nothing in progress. -/
def exInit : SystemState :=
  { igs := [InstallationGroup.mk "ig-a" InstallationGroupReleasePending 0 60
              none 0,
            InstallationGroup.mk "ig-b" InstallationGroupReleasePending 0 60
              none 0],
    rings := [Ring.mk "r1" RingStateReleaseRequested "rel1"],
    ringOfIG := [("ig-a", "r1"), ("ig-b", "r1")],
    releases := [RingRelease.mk "rel1" "img" "v1" false],
    threads := [("instance1", .idle), ("instance2", .idle)] }

/-- The state after instance 1 locks `ig-a`. -/
def exMid : SystemState :=
  applyLock exInit "instance1" "ig-a" InstallationGroupReleasePending 1

/-- The state after instance 2 additionally locks `ig-b`: both installation
groups are simultaneously held under the release lock. -/
def exBad : SystemState :=
  applyLock exMid "instance2" "ig-b" InstallationGroupReleasePending 2

/-! ## C4: characterisation of the API transition relation -/

/-- C4: `Ring.ValidTransitionState` accepts exactly the permitted API edges:
to `creation-requested` from {creation-requested, creation-failed}; to
`release-requested` from {stable, release-requested, release-failed}; to
`deletion-requested` from {stable, creation-requested, creation-failed,
release-failed, deletion-requested, deletion-failed}; to `soaking-requested`
from {release-complete, soaking-requested, soaking-failed}; to
`release-rollback-requested` from {soaking-failed, release-failed,
release-rollback-failed}; and rejects every other pair, in particular every
transition out of `deleted`. -/
theorem validTransitionState_iff_permitted_edges :
    (∀ s t : String,
      (Ring.mk "r" s "rel").ValidTransitionState t = true ↔
        ((t = RingStateCreationRequested ∧
            (s = RingStateCreationRequested ∨ s = RingStateCreationFailed)) ∨
         (t = RingStateReleaseRequested ∧
            (s = RingStateStable ∨ s = RingStateReleaseRequested ∨
             s = RingStateReleaseFailed)) ∨
         (t = RingStateDeletionRequested ∧
            (s = RingStateStable ∨ s = RingStateCreationRequested ∨
             s = RingStateCreationFailed ∨ s = RingStateReleaseFailed ∨
             s = RingStateDeletionRequested ∨ s = RingStateDeletionFailed)) ∨
         (t = RingStateSoakingRequested ∧
            (s = RingStateReleaseComplete ∨ s = RingStateSoakingRequested ∨
             s = RingStateSoakingFailed)) ∨
         (t = RingStateReleaseRollbackRequested ∧
            (s = RingStateSoakingFailed ∨ s = RingStateReleaseFailed ∨
             s = RingStateReleaseRollbackFailed)))) ∧
    (∀ t : String,
      (Ring.mk "r" RingStateDeleted "rel").ValidTransitionState t = false) := by
  constructor
  · intro s t
    simp only [Ring.ValidTransitionState,
      validTransitionToRingStateCreationRequested,
      validTransitionToRingStateReleaseRequested,
      validTransitionToRingStateDeletionRequested,
      validTransitionToRingStateSoakingRequested,
      validTransitionToRingStateRollbackRequested,
      RingStateStable, RingStateCreationRequested, RingStateCreationFailed,
      RingStateReleaseRequested, RingStateReleaseFailed,
      RingStateReleaseComplete, RingStateSoakingRequested,
      RingStateSoakingFailed, RingStateReleaseRollbackRequested,
      RingStateReleaseRollbackFailed, RingStateDeletionRequested,
      RingStateDeletionFailed]
    split_ifs <;> simp_all <;> tauto
  · intro t
    simp only [Ring.ValidTransitionState,
      validTransitionToRingStateCreationRequested,
      validTransitionToRingStateReleaseRequested,
      validTransitionToRingStateDeletionRequested,
      validTransitionToRingStateSoakingRequested,
      validTransitionToRingStateRollbackRequested,
      RingStateDeleted, RingStateStable, RingStateCreationRequested,
      RingStateCreationFailed, RingStateReleaseRequested,
      RingStateReleaseFailed, RingStateReleaseComplete,
      RingStateSoakingRequested, RingStateSoakingFailed,
      RingStateReleaseRollbackRequested, RingStateReleaseRollbackFailed,
      RingStateDeletionRequested, RingStateDeletionFailed]
    split_ifs <;> simp_all

/-- Concrete instantiation of the C4 characterisation: the edge
`stable → release-requested` is accepted and `deleted → release-requested`
is rejected. -/
theorem validTransitionState_iff_permitted_edges_witness :
    (Ring.mk "r" RingStateStable "rel").ValidTransitionState
        RingStateReleaseRequested = true ∧
    (Ring.mk "r" RingStateDeleted "rel").ValidTransitionState
        RingStateReleaseRequested = false :=
  ⟨(validTransitionState_iff_permitted_edges.1 RingStateStable
      RingStateReleaseRequested).mpr (Or.inr (Or.inl ⟨rfl, Or.inl rfl⟩)),
   validTransitionState_iff_permitted_edges.2 RingStateReleaseRequested⟩

/-! ## C8: the ring pending-work set -/

/-- C8 counterexample: the claimed pending-work set contains
`release-in-progress`, but `AllRingStatesPendingWork` in the source does not:
the code's set is not the claimed six-element set. -/
theorem allRingStatesPendingWork_missing_release_in_progress :
    RingStateReleaseInProgress ∈
      [RingStateCreationRequested, RingStateReleaseRequested,
       RingStateReleaseInProgress, RingStateSoakingRequested,
       RingStateReleaseRollbackRequested, RingStateDeletionRequested] ∧
    RingStateReleaseInProgress ∉ AllRingStatesPendingWork := by
  constructor
  · simp
  · simp [AllRingStatesPendingWork, RingStateReleaseInProgress,
      RingStateCreationRequested, RingStateReleaseRequested,
      RingStateSoakingRequested, RingStateReleaseRollbackRequested,
      RingStateDeletionRequested]

/-- C8 (amended): membership in `AllRingStatesPendingWork` is exactly the five
states creation-requested, release-requested, soaking-requested,
release-rollback-requested and deletion-requested; `release-in-progress` is not
among them. -/
theorem allRingStatesPendingWork_characterisation :
    ∀ s : String,
      s ∈ AllRingStatesPendingWork ↔
        (s = RingStateCreationRequested ∨ s = RingStateReleaseRequested ∨
         s = RingStateSoakingRequested ∨
         s = RingStateReleaseRollbackRequested ∨
         s = RingStateDeletionRequested) := by
  intro s
  simp [AllRingStatesPendingWork]

/-- Concrete instantiation of the C8 characterisation at `creation-requested`. -/
theorem allRingStatesPendingWork_characterisation_witness :
    RingStateCreationRequested ∈ AllRingStatesPendingWork :=
  (allRingStatesPendingWork_characterisation RingStateCreationRequested).mpr
    (Or.inl rfl)


/-! ## C2: the `release-pending` transition -/

/-- C2: for an installation group in `release-pending` (with all store queries
succeeding), the computed next state is `release-failed` when the parent ring
is in `release-failed`; `release-pending` (re-queue) when the ring is in
neither `release-requested` nor `release-in-progress`, or another installation
group is locked (locked count > 1), or some installation group is in
`release-in-progress`; and `release-requested` otherwise. -/
theorem checkInstallationGroupPending_cases (ring : Ring)
    (locked inProgress : List InstallationGroup) :
    (ring.state = RingStateReleaseFailed →
      checkInstallationGroupPending (some ring) (some locked) (some inProgress) =
        InstallationGroupReleaseFailed) ∧
    (ring.state ≠ RingStateReleaseFailed →
      ((ring.state ≠ RingStateReleaseRequested ∧
          ring.state ≠ RingStateReleaseInProgress) ∨
        locked.length > 1 ∨ inProgress.length > 0) →
      checkInstallationGroupPending (some ring) (some locked) (some inProgress) =
        InstallationGroupReleasePending) ∧
    (ring.state ≠ RingStateReleaseFailed →
      (ring.state = RingStateReleaseRequested ∨
        ring.state = RingStateReleaseInProgress) →
      locked.length ≤ 1 → inProgress.length = 0 →
      checkInstallationGroupPending (some ring) (some locked) (some inProgress) =
        InstallationGroupReleaseRequested) := by
  refine ⟨?_, ?_, ?_⟩
  · intro h
    simp [checkInstallationGroupPending, h]
  · intro h hcase
    simp only [checkInstallationGroupPending]
    split_ifs with h1 h2 h3
    · exact absurd h1 h
    · rfl
    · rfl
    · rcases hcase with hring | hlen | hip
      · exact absurd hring h2
      · omega
      · omega
  · intro h hring hlen hip
    simp only [checkInstallationGroupPending]
    split_ifs with h1 h2 h3
    · exact absurd h1 h
    · rcases hring with hr | hr <;> simp [hr] at h2
    · omega
    · rfl

/-- Concrete instantiation of C2: parent ring in `release-requested`, only the
caller locked, nothing in progress: the next state is `release-requested`. -/
theorem checkInstallationGroupPending_cases_witness :
    checkInstallationGroupPending
        (some (Ring.mk "r1" RingStateReleaseRequested "rel1"))
        (some [InstallationGroup.mk "ig-a" InstallationGroupReleasePending 0 60
          (some "instance1") 0])
        (some []) = InstallationGroupReleaseRequested :=
  (checkInstallationGroupPending_cases
      (Ring.mk "r1" RingStateReleaseRequested "rel1")
      [InstallationGroup.mk "ig-a" InstallationGroupReleasePending 0 60
        (some "instance1") 0] []).2.2
    (by decide) (Or.inl rfl) (by decide) rfl

/-! ## C3: store errors during a tick -/

/-- C3 counterexample: a transient store error while computing the transition
of a `release-pending` (resp. `release-requested`) installation group makes the
computed next state `release-failed` — a failure state — rather than leaving
the entity in its pre-transition state. -/
theorem storeError_during_transition_reaches_failure_state :
    checkInstallationGroupPending none (some []) (some []) =
      InstallationGroupReleaseFailed ∧
    (releaseInstallationGroup
        (InstallationGroup.mk "ig-a" InstallationGroupReleaseRequested 0 60
          (some "instance1") 0)
        none (fun _ => none) true).2 = InstallationGroupReleaseFailed ∧
    InstallationGroupReleaseFailed ≠ InstallationGroupReleasePending ∧
    InstallationGroupReleaseFailed ≠ InstallationGroupReleaseRequested := by
  refine ⟨rfl, rfl, by decide, by decide⟩

/-- C3 (amended): a transient store error during discovery in `Do` abandons the
tick — no installation group is supervised, so none transitions — but a store
error during any query made while computing a transition (ring lookup, locked
query, release-in-progress query, ring-release lookup) makes the computed next
state `release-failed`. -/
theorem storeError_discovery_abandons_transition_errors_fail :
    (Do none = []) ∧
    (∀ lockedRes inProgressRes,
      checkInstallationGroupPending none lockedRes inProgressRes =
        InstallationGroupReleaseFailed) ∧
    (∀ (ring : Ring) inProgressRes,
      ring.state = RingStateReleaseRequested →
      checkInstallationGroupPending (some ring) none inProgressRes =
        InstallationGroupReleaseFailed) ∧
    (∀ (ring : Ring) (locked : List InstallationGroup),
      ring.state = RingStateReleaseRequested →
      checkInstallationGroupPending (some ring) (some locked) none =
        InstallationGroupReleaseFailed) ∧
    (∀ (installationGroup : InstallationGroup) getRelease provisionerOk,
      (releaseInstallationGroup installationGroup none getRelease
          provisionerOk).2 = InstallationGroupReleaseFailed) ∧
    (∀ (installationGroup : InstallationGroup) (ring : Ring) provisionerOk,
      (releaseInstallationGroup installationGroup (some ring) (fun _ => none)
          provisionerOk).2 = InstallationGroupReleaseFailed) := by
  refine ⟨rfl, fun _ _ => rfl, ?_, ?_, fun _ _ _ => rfl, fun _ _ _ => rfl⟩
  · intro ring inProgressRes h
    simp [checkInstallationGroupPending, h, RingStateReleaseRequested,
      RingStateReleaseFailed, RingStateReleaseInProgress]
  · intro ring locked h
    simp [checkInstallationGroupPending, h, RingStateReleaseRequested,
      RingStateReleaseFailed, RingStateReleaseInProgress]

/-- Concrete instantiation of the amended C3 at a ring in `release-requested`:
a store error on the locked query yields `release-failed`. -/
theorem storeError_discovery_abandons_transition_errors_fail_witness :
    checkInstallationGroupPending
        (some (Ring.mk "r1" RingStateReleaseRequested "rel1")) none (some []) =
      InstallationGroupReleaseFailed :=
  storeError_discovery_abandons_transition_errors_fail.2.2.1
    (Ring.mk "r1" RingStateReleaseRequested "rel1") (some []) rfl

/-! ## C7: the `soaking-requested` transition -/

/-- C7: while `(now - ReleaseAt)` in whole seconds is below `SoakTime` the
installation group stays `soaking-requested` and the provisioner is not
called; once the soak period has elapsed `SoakInstallationGroup` is invoked
and the next state is `stable` on success and `soaking-failed` on error. -/
theorem soakInstallationGroup_cases (installationGroup : InstallationGroup)
    (provisionerOk : Bool) (now : Int) :
    (Int.tdiv (now - installationGroup.releaseAt) 1000000000 <
        installationGroup.soakTime →
      soakInstallationGroup installationGroup provisionerOk now =
        (none, InstallationGroupReleaseSoakingRequested)) ∧
    (installationGroup.soakTime ≤
        Int.tdiv (now - installationGroup.releaseAt) 1000000000 →
      soakInstallationGroup installationGroup provisionerOk now =
        (some (ProvisionerCall.soakIG installationGroup.id),
         if provisionerOk then InstallationGroupStable
         else InstallationGroupReleaseSoakingFailed)) := by
  constructor
  · intro h
    simp [soakInstallationGroup, h]
  · intro h
    cases provisionerOk <;> simp [soakInstallationGroup] <;> omega

/-- Concrete instantiation of C7: with `ReleaseAt = 0`, `SoakTime = 60` the
group still soaks at `now = 30 s` and goes stable at `now = 60 s`. -/
theorem soakInstallationGroup_cases_witness :
    soakInstallationGroup
        (InstallationGroup.mk "ig-a" InstallationGroupReleaseSoakingRequested 0
          60 (some "instance1") 0) true 30000000000 =
      (none, InstallationGroupReleaseSoakingRequested) ∧
    soakInstallationGroup
        (InstallationGroup.mk "ig-a" InstallationGroupReleaseSoakingRequested 0
          60 (some "instance1") 0) true 60000000000 =
      (some (ProvisionerCall.soakIG "ig-a"), InstallationGroupStable) := by
  constructor
  · exact (soakInstallationGroup_cases _ true 30000000000).1 (by decide)
  · exact (soakInstallationGroup_cases _ true 60000000000).2 (by decide)

/-! ## C10: unexpected states are left untouched -/

/-- C10: an installation group whose state is none of `release-pending`,
`release-requested`, `soaking-requested` is returned unchanged by
`transitionInstallationGroup`, with no provisioner call. -/
theorem transitionInstallationGroup_unexpected_state_unchanged
    (installationGroup : InstallationGroup) (ringRes : Option Ring)
    (lockedRes inProgressRes : Option (List InstallationGroup))
    (getRelease : String → Option RingRelease)
    (provisionerReleaseOk provisionerSoakOk : Bool) (now : Int)
    (h : installationGroup.state ∉
      [InstallationGroupReleasePending, InstallationGroupReleaseRequested,
       InstallationGroupReleaseSoakingRequested]) :
    transitionInstallationGroup installationGroup ringRes lockedRes
        inProgressRes getRelease provisionerReleaseOk provisionerSoakOk now =
      (none, installationGroup.state) := by
  simp only [List.mem_cons, List.not_mem_nil, or_false, not_or] at h
  obtain ⟨h1, h2, h3⟩ := h
  simp [transitionInstallationGroup, h1, h2, h3]

/-- Concrete instantiation of C10 at an installation group found in
`release-in-progress`: it is not advanced. -/
theorem transitionInstallationGroup_unexpected_state_unchanged_witness :
    transitionInstallationGroup
        (InstallationGroup.mk "ig-a" InstallationGroupReleaseInProgress 0 60
          (some "instance1") 0)
        none none none (fun _ => none) true true 0 =
      (none, InstallationGroupReleaseInProgress) :=
  transitionInstallationGroup_unexpected_state_unchanged _ none none none
    (fun _ => none) true true 0 (by decide)


/-! ## C5: the `release-requested` transition -/

/-- C5: in `release-requested`, the supervisor resolves the parent ring's
`DesiredReleaseID` to a RingRelease and calls
`provisioner.ReleaseInstallationGroup` with that release's image and version;
the next state is `release-failed` on provisioner error, `stable` when
`release.Force`, and `soaking-requested` otherwise; and persisting a
transition from `release-requested` into `soaking-requested` or `stable`
stamps `ReleaseAt` with the current time. -/
theorem releaseInstallationGroup_uses_desired_release_and_stamps_releaseAt
    (installationGroup : InstallationGroup) (ring : Ring)
    (release : RingRelease) (getRelease : String → Option RingRelease)
    (provisionerOk : Bool)
    (hrel : getRelease ring.desiredReleaseID = some release) :
    releaseInstallationGroup installationGroup (some ring) getRelease
        provisionerOk =
      (some (ProvisionerCall.releaseIG installationGroup.id release.image
         release.version),
       if !provisionerOk then InstallationGroupReleaseFailed
       else if release.force then InstallationGroupStable
       else InstallationGroupReleaseSoakingRequested) ∧
    (∀ (g : InstallationGroup) (newState : String) (tRelease tWebhook : Int)
        (updateOk : Bool) (ringsPendingRes : Option (List Ring))
        (ringsUpdateOk : Bool),
      g.state = InstallationGroupReleaseRequested →
      (newState = InstallationGroupReleaseSoakingRequested ∨
        newState = InstallationGroupStable) →
      (supervisePersist g newState tRelease tWebhook updateOk ringsPendingRes
          ringsUpdateOk).updateIGCall =
        some { g with state := newState, releaseAt := tRelease }) := by
  constructor
  · simp only [releaseInstallationGroup, hrel]
    split_ifs <;> rfl
  · intro g newState tRelease tWebhook updateOk ringsPendingRes ringsUpdateOk
      hstate hnew
    have hne : InstallationGroupReleaseRequested ≠ newState := by
      rcases hnew with h | h <;> rw [h] <;> decide
    have hstamp : (g.state = InstallationGroupReleaseRequested ∧
        (newState = InstallationGroupReleaseSoakingRequested ∨
         newState = InstallationGroupStable)) := ⟨hstate, hnew⟩
    have hnotfail : ¬(newState = InstallationGroupReleaseFailed ∨
        newState = InstallationGroupReleaseSoakingFailed) := by
      rcases hnew with h | h <;> rw [h] <;> decide
    cases updateOk <;>
      simp [supervisePersist, hstate, hne, hstamp, hnotfail]

/-- Concrete instantiation of C5: a non-forced release succeeds, the
provisioner is called with the release's image and version, the next state is
`soaking-requested`, and the persisted row carries `ReleaseAt = 12345`. -/
theorem releaseInstallationGroup_uses_desired_release_witness :
    releaseInstallationGroup
        (InstallationGroup.mk "ig-a" InstallationGroupReleaseRequested 0 60
          (some "instance1") 0)
        (some (Ring.mk "r1" RingStateReleaseRequested "rel1"))
        (fun _ => some (RingRelease.mk "rel1" "img" "v1" false)) true =
      (some (ProvisionerCall.releaseIG "ig-a" "img" "v1"),
       InstallationGroupReleaseSoakingRequested) ∧
    (supervisePersist
        (InstallationGroup.mk "ig-a" InstallationGroupReleaseRequested 0 60
          (some "instance1") 0)
        InstallationGroupReleaseSoakingRequested 12345 777 true (some [])
        true).updateIGCall =
      some (InstallationGroup.mk "ig-a"
        InstallationGroupReleaseSoakingRequested 12345 60 (some "instance1")
        0) := by
  have h := releaseInstallationGroup_uses_desired_release_and_stamps_releaseAt
    (InstallationGroup.mk "ig-a" InstallationGroupReleaseRequested 0 60
      (some "instance1") 0)
    (Ring.mk "r1" RingStateReleaseRequested "rel1")
    (RingRelease.mk "rel1" "img" "v1" false)
    (fun _ => some (RingRelease.mk "rel1" "img" "v1" false)) true rfl
  exact ⟨h.1, h.2 _ InstallationGroupReleaseSoakingRequested 12345 777 true
    (some []) true rfl (Or.inl rfl)⟩

/-! ## C6: the failure cascade -/

/-- C6: whenever an installation group transitions into `release-failed` or
`soaking-failed` (and the update persists), the supervisor fetches all rings
pending work and passes every one of them — with state set to
`release-failed` — to a single `UpdateRings` bulk update. -/
theorem failure_cascade_bulk_updates_all_pending_rings
    (installationGroup : InstallationGroup) (newState : String)
    (tRelease tWebhook : Int) (rings : List Ring) (ringsUpdateOk : Bool)
    (hne : installationGroup.state ≠ newState)
    (hfail : newState = InstallationGroupReleaseFailed ∨
      newState = InstallationGroupReleaseSoakingFailed) :
    (supervisePersist installationGroup newState tRelease tWebhook true
        (some rings) ringsUpdateOk).updateRingsCall =
      some (rings.map (fun r => { r with state := RingStateReleaseFailed })) ∧
    (∀ r ∈ rings.map (fun r => { r with state := RingStateReleaseFailed }),
      r.state = RingStateReleaseFailed) := by
  constructor
  · cases ringsUpdateOk <;> simp [supervisePersist, hne, hfail]
  · intro r hr
    simp only [List.mem_map] at hr
    obtain ⟨r0, _, rfl⟩ := hr
    rfl

/-- Concrete instantiation of C6: installation group A fails release; both
pending rings — not only A's parent ring `r1` — are bulk-updated to
`release-failed`. -/
theorem failure_cascade_bulk_updates_all_pending_rings_witness :
    (supervisePersist
        (InstallationGroup.mk "ig-a" InstallationGroupReleaseRequested 0 60
          (some "instance1") 0)
        InstallationGroupReleaseFailed 0 777 true
        (some [Ring.mk "r1" RingStateReleaseInProgress "rel1",
               Ring.mk "r2" RingStateReleaseRequested "rel2"])
        true).updateRingsCall =
      some [Ring.mk "r1" RingStateReleaseFailed "rel1",
            Ring.mk "r2" RingStateReleaseFailed "rel2"] := by
  simpa using (failure_cascade_bulk_updates_all_pending_rings
    (InstallationGroup.mk "ig-a" InstallationGroupReleaseRequested 0 60
      (some "instance1") 0)
    InstallationGroupReleaseFailed 0 777
    [Ring.mk "r1" RingStateReleaseInProgress "rel1",
     Ring.mk "r2" RingStateReleaseRequested "rel2"] true
    (by decide) (Or.inl rfl)).1

/-! ## C9: the webhook emission -/

/-- C9 counterexample: the installation-group supervisor builds its webhook
payload with `Type = model.TypeRing` (`"ring"`), not `"installation-group"`,
as the source sets `Type: model.TypeRing`. -/
theorem webhook_payload_type_is_ring :
    (supervisePersist
        (InstallationGroup.mk "ig-a" InstallationGroupReleaseRequested 0 60
          (some "instance1") 0)
        InstallationGroupReleaseSoakingRequested 5 7 true (some [])
        true).webhookPayload =
      some (WebhookPayload.mk TypeRing "ig-a"
        InstallationGroupReleaseSoakingRequested
        InstallationGroupReleaseRequested 7) ∧
    TypeRing ≠ TypeInstallationGroup := by
  exact ⟨rfl, by decide⟩

/-- C9 (amended): after a successful persistence with `oldState ≠ newState`
(and, on the failure-cascade path, successful ring bulk-update) the supervisor
hands every webhook a payload whose `Type` is `"ring"` (`model.TypeRing`),
whose `ID` is the installation group's ID and whose `NewState`/`OldState` are
the new and old installation-group states; when the computed next state equals
the current state nothing is persisted and no webhook is sent. -/
theorem supervise_webhook_emission (installationGroup : InstallationGroup)
    (newState : String) (tRelease tWebhook : Int) (rings : List Ring)
    (webhooks : List Webhook) :
    (installationGroup.state ≠ newState →
      (supervisePersist installationGroup newState tRelease tWebhook true
          (some rings) true).webhookPayload =
        some ⟨TypeRing, installationGroup.id, newState,
          installationGroup.state, tWebhook⟩ ∧
      (∀ w ∈ webhooks,
        (w.url, (⟨TypeRing, installationGroup.id, newState,
            installationGroup.state, tWebhook⟩ : WebhookPayload)) ∈
          sendToAllWebhooks webhooks
            ⟨TypeRing, installationGroup.id, newState,
              installationGroup.state, tWebhook⟩)) ∧
    (installationGroup.state = newState →
      supervisePersist installationGroup newState tRelease tWebhook true
          (some rings) true = ⟨none, none, none⟩) := by
  constructor
  · intro hne
    constructor
    · by_cases hfail : newState = InstallationGroupReleaseFailed ∨
          newState = InstallationGroupReleaseSoakingFailed
      · simp [supervisePersist, hne, hfail]
      · simp [supervisePersist, hne, hfail]
    · intro w hw
      simp only [sendToAllWebhooks, List.mem_map]
      exact ⟨w, hw, rfl⟩
  · intro heq
    simp [supervisePersist, heq]

/-- Concrete instantiation of the amended C9: a state change emits the payload
to the registered webhook; an unchanged state emits nothing. -/
theorem supervise_webhook_emission_witness :
    (supervisePersist
        (InstallationGroup.mk "ig-a" InstallationGroupReleaseRequested 0 60
          (some "instance1") 0)
        InstallationGroupStable 5 7 true (some []) true).webhookPayload =
      some (WebhookPayload.mk TypeRing "ig-a" InstallationGroupStable
        InstallationGroupReleaseRequested 7) ∧
    supervisePersist
        (InstallationGroup.mk "ig-a" InstallationGroupStable 0 60
          (some "instance1") 0)
        InstallationGroupStable 5 7 true (some []) true =
      ⟨none, none, none⟩ := by
  constructor
  · exact (supervise_webhook_emission
      (InstallationGroup.mk "ig-a" InstallationGroupReleaseRequested 0 60
        (some "instance1") 0)
      InstallationGroupStable 5 7 [] [] |>.1 (by decide)).1
  · exact (supervise_webhook_emission
      (InstallationGroup.mk "ig-a" InstallationGroupStable 0 60
        (some "instance1") 0)
      InstallationGroupStable 5 7 [] []).2 rfl


/-! ### C1 counterexample and amended invariant -/

/-- C1 counterexample: from a legitimate initial state (no lock held, nothing
in progress) two supervisor instances may each acquire the lock of a distinct
pending installation group, reaching a state in which two installation groups
are simultaneously in `release-in-progress`-or-locked — the code's own
`len(installationGroupsLocked) > 1` re-queue check exists precisely because
this is reachable. -/
theorem two_igs_locked_reachable :
    Reachable exInit exBad ∧
    lockedOrReleaseInProgressCount exInit = 0 ∧
    lockedOrReleaseInProgressCount exBad = 2 := by
  refine ⟨?_, by decide, by decide⟩
  have h1 : SystemStep exInit exMid :=
    SystemStep.lockIG exInit "instance1" "ig-a"
      (InstallationGroup.mk "ig-a" InstallationGroupReleasePending 0 60 none 0)
      1 (by decide) (by decide) (by decide) rfl
  have h2 : SystemStep exMid exBad :=
    SystemStep.lockIG exMid "instance2" "ig-b"
      (InstallationGroup.mk "ig-b" InstallationGroupReleasePending 0 60 none 0)
      2 (by decide) (by decide) (by decide) rfl
  exact Reachable.step (Reachable.step Reachable.refl h1) h2

/-! ### Preservation of the `release-in-progress` count -/

theorem countP_map_le_of_imp {α : Type} (l : List α) (f : α → α)
    (p : α → Bool) (hf : ∀ g ∈ l, p (f g) = true → p g = true) :
    (l.map f).countP p ≤ l.countP p := by
  rw [List.countP_map]
  exact List.countP_mono_left hf

theorem releaseInProgressCount_updateIGRow_le (s : SystemState)
    (igID : String) (f : InstallationGroup → InstallationGroup)
    (hf : ∀ g, isReleaseInProgress (f g) = true →
      isReleaseInProgress g = true) :
    releaseInProgressCount (updateIGRow s igID f) ≤
      releaseInProgressCount s := by
  simp only [releaseInProgressCount, updateIGRow]
  apply countP_map_le_of_imp
  intro g _ hp
  by_cases h : g.id = igID
  · rw [if_pos h] at hp
    exact hf g hp
  · rwa [if_neg h] at hp

theorem releaseInProgressCount_finishSupervise_le (s : SystemState)
    (instanceID igID : String) :
    releaseInProgressCount (finishSupervise s instanceID igID) ≤
      releaseInProgressCount s := by
  refine releaseInProgressCount_updateIGRow_le s igID _ ?_
  intro g hp
  by_cases h : g.lockAcquiredBy = some instanceID
  · rw [if_pos h] at hp
    exact hp
  · rwa [if_neg h] at hp

theorem checkInstallationGroupPending_ne_inProgress
    (ringRes : Option Ring)
    (lockedRes inProgressRes : Option (List InstallationGroup)) :
    checkInstallationGroupPending ringRes lockedRes inProgressRes ≠
      InstallationGroupReleaseInProgress := by
  rcases ringRes with _ | ring <;> rcases lockedRes with _ | locked <;>
    rcases inProgressRes with _ | ip <;>
    simp only [checkInstallationGroupPending] <;> (try split_ifs) <;> decide

theorem releaseInstallationGroup_snd_ne_inProgress
    (g : InstallationGroup) (ringRes : Option Ring)
    (getRelease : String → Option RingRelease) (provisionerOk : Bool) :
    (releaseInstallationGroup g ringRes getRelease provisionerOk).2 ≠
      InstallationGroupReleaseInProgress := by
  intro hc
  rcases ringRes with _ | ring
  · simp only [releaseInstallationGroup] at hc
    exact absurd hc (by decide)
  · simp only [releaseInstallationGroup] at hc
    rcases h : getRelease ring.desiredReleaseID with _ | release
    · rw [h] at hc
      exact absurd
        (show InstallationGroupReleaseFailed =
            InstallationGroupReleaseInProgress from hc) (by decide)
    · rw [h] at hc
      dsimp only at hc
      split_ifs at hc <;> dsimp only at hc <;> exact absurd hc (by decide)

theorem soakInstallationGroup_snd_ne_inProgress (g : InstallationGroup)
    (provisionerOk : Bool) (now : Int) :
    (soakInstallationGroup g provisionerOk now).2 ≠
      InstallationGroupReleaseInProgress := by
  intro hc
  simp only [soakInstallationGroup] at hc
  split_ifs at hc <;> dsimp only at hc <;> exact absurd hc (by decide)

theorem transitionInstallationGroup_inProgress_imp_unchanged
    (g : InstallationGroup) (ringRes : Option Ring)
    (lockedRes inProgressRes : Option (List InstallationGroup))
    (getRelease : String → Option RingRelease)
    (provisionerReleaseOk provisionerSoakOk : Bool) (now : Int) :
    (transitionInstallationGroup g ringRes lockedRes inProgressRes getRelease
        provisionerReleaseOk provisionerSoakOk now).2 =
      InstallationGroupReleaseInProgress →
    (transitionInstallationGroup g ringRes lockedRes inProgressRes getRelease
        provisionerReleaseOk provisionerSoakOk now).2 = g.state := by
  simp only [transitionInstallationGroup]
  split_ifs with h1 h2 h3
  · intro hc
    exact absurd hc
      (checkInstallationGroupPending_ne_inProgress ringRes lockedRes
        inProgressRes)
  · intro hc
    exact absurd hc
      (releaseInstallationGroup_snd_ne_inProgress g ringRes getRelease
        provisionerReleaseOk)
  · intro hc
    exact absurd hc
      (soakInstallationGroup_snd_ne_inProgress g provisionerSoakOk now)
  · intro _
    rfl

theorem superviseNewState_inProgress_imp_unchanged (s : SystemState)
    (igID : String) (g : InstallationGroup) (o : TickOracle) :
    superviseNewState s igID g o = InstallationGroupReleaseInProgress →
    superviseNewState s igID g o = g.state :=
  transitionInstallationGroup_inProgress_imp_unchanged g _ _ _ _ _ _ _

theorem releaseInProgressCount_superviseWork_le (s : SystemState)
    (instanceID igID : String) (g : InstallationGroup) (o : TickOracle) :
    releaseInProgressCount (superviseWork s instanceID igID g o) ≤
      releaseInProgressCount s := by
  have hbound : ∀ (f : InstallationGroup → InstallationGroup),
      (∀ h, (f h).state = superviseNewState s igID g o) →
      ¬g.state = superviseNewState s igID g o →
      releaseInProgressCount (updateIGRow s igID f) ≤
        releaseInProgressCount s := by
    intro f hf hne
    apply releaseInProgressCount_updateIGRow_le
    intro h hp
    exfalso
    simp only [isReleaseInProgress, decide_eq_true_eq] at hp
    rw [hf h] at hp
    exact hne ((superviseNewState_inProgress_imp_unchanged s igID g o hp).symm)
  simp only [superviseWork]
  split_ifs with h1 h2 h3 <;>
    first
      | exact releaseInProgressCount_finishSupervise_le s instanceID igID
      | exact le_trans
          (releaseInProgressCount_finishSupervise_le _ instanceID igID)
          (hbound _ (fun h => rfl) h2)

theorem releaseInProgressCount_step_le {s s' : SystemState}
    (h : SystemStep s s') :
    releaseInProgressCount s' ≤ releaseInProgressCount s := by
  cases h with
  | lockIG instanceID igID g t h1 h2 h3 h4 =>
    exact releaseInProgressCount_updateIGRow_le s igID _ (fun g hp => hp)
  | abortSupervise instanceID igID snapshot h1 =>
    exact releaseInProgressCount_finishSupervise_le s instanceID igID
  | workSupervise instanceID igID snapshot g o h1 h2 h3 =>
    exact releaseInProgressCount_superviseWork_le s instanceID igID g o
  | ringMarkPending ringID r h1 h2 h3 =>
    simp only [releaseInProgressCount, applyRingMarkPending]
    apply countP_map_le_of_imp
    intro g _ hp
    by_cases h : (g.id, ringID) ∈ s.ringOfIG
    · rw [if_pos h] at hp
      simp only [isReleaseInProgress, decide_eq_true_eq] at hp
      exact absurd hp (by decide)
    · rwa [if_neg h] at hp
  | ringSetState ringID newState =>
    exact le_of_eq rfl

/-- C1 (amended): at every system state reachable by the step relation from
an initial state with at most one installation group in `release-in-progress`,
at most one installation group across the entire system is in state
`release-in-progress` — no supervisor step ever moves an installation group
into that state.  (The lock-held disjunct of the original claim is refuted by
the counterexample: two instances may hold two locks at once.) -/
theorem at_most_one_release_in_progress (init s : SystemState)
    (hreach : Reachable init s)
    (hinit : releaseInProgressCount init ≤ 1) :
    releaseInProgressCount s ≤ 1 := by
  induction hreach with
  | refl => exact hinit
  | step _ hstep ih => exact le_trans (releaseInProgressCount_step_le hstep) ih

/-- Concrete instantiation of the amended C1 at the two-installation-group
initial state. -/
theorem at_most_one_release_in_progress_witness :
    releaseInProgressCount exInit ≤ 1 :=
  at_most_one_release_in_progress exInit exInit Reachable.refl (by decide)

end Elrond
